import Mathlib

/-
Verification of the scalpyr client core (src/scalpyr/scalpyrpro.py):
a shallow embedding of the projector, the pager, the venue resolver and
the batch-by-id lookup, together with theorems settling the spec claims.
Values carried by API records are modelled as opaque strings: none of the
verified operations inspects a field value, they only move them around.
The HTTP transport (the base Scalpyr class) is an external collaborator;
every operation is parameterised over it as a pure function.
-/

namespace Scalpyr

/-- Scalar or nested payload of a record field, kept opaque. -/
abbrev Value := String

/-- One raw record of an API response: an ordered mapping from field name
to value, as decoded from JSON. -/
abbrev Record := List (String × Value)

/-- Tabular structure mirroring a pandas DataFrame: an ordered list of
column names, and rows aligned positionally with the columns. A missing
cell (pandas NaN, produced when a record lacks a column) is none. -/
structure DataFrame where
  columns : List String
  rows : List (List (Option Value))
deriving Repr, DecidableEq, Inhabited

/-- Value stored under one key of a raw response dictionary: either a
list of records (a resource list), a projected table (after the
projection step overwrites the resource key), or some other payload. -/
inductive Field where
  | records (rs : List Record)
  | table (df : DataFrame)
  | other (v : Value)
deriving Repr, DecidableEq

/-- Raw response dictionary returned by the transport: an ordered mapping
from string key to field, mirroring a decoded JSON object. -/
abbrev RawResponse := List (String × Field)

/-- Python exception kinds the embedded code can raise.
apiException models the repository class ApiException and carries the
full raw response, exactly as ApiException(response) does. -/
inductive PyErr where
  | apiException (resp : RawResponse)
  | attributeError (name : String)
  | keyError (name : String)
  | valueError (msg : String)
deriving Repr, DecidableEq

deriving instance DecidableEq for Except

/-- The pydantic SeatGeekDataStructure: per resource kind, the ordered
list of column names to retain. -/
structure SeatGeekDataStructure where
  events : List String
  performers : List String
  stats : List String
  venues : List String
deriving Repr, DecidableEq

/-- Python getattr applied to a SeatGeekDataStructure instance: returns
the field named by the string, and raises AttributeError (not KeyError)
when the name is not one of the four declared fields, which is what
getattr does on a pydantic model. -/
def getattrSG (s : SeatGeekDataStructure) (name : String) : Except PyErr (List String) :=
  if name = "events" then .ok s.events
  else if name = "performers" then .ok s.performers
  else if name = "stats" then .ok s.stats
  else if name = "venues" then .ok s.venues
  else .error (.attributeError name)

/-- The default SeatGeekDataStructure built in ScalpyrPro.__init__ when
none is supplied. -/
def defaultStructure : SeatGeekDataStructure :=
  { events := ["type", "id", "datetime_utc", "venue", "performers", "short_title",
      "stats", "url", "score", "announce_date", "status", "access_method", "visible_at"]
    performers := ["type", "name", "id", "has_upcoming_events", "primary", "url",
      "score", "slug", "num_upcoming_events"]
    stats := ["listing_count", "average_price", "median_price", "lowest_price", "highest_price"]
    venues := ["state", "postal_code", "name", "timezone", "url", "score", "location",
      "country", "num_upcoming_events", "city", "slug", "id", "access_method",
      "metro_code", "capacity"] }

/-- Union of the record keys in first-appearance order: the column set
pandas DataFrame.from_dict builds from a list of record dictionaries. -/
def unionKeys (rs : List Record) : List String :=
  rs.foldl (fun acc r => r.foldl (fun a kv => if kv.1 ∈ a then a else a ++ [kv.1]) acc) []

/-- pandas DataFrame.from_dict on a list of records: columns are the
union of keys in first-appearance order, each row holds the record
values aligned to the columns, none where the record lacks the key. -/
def fromDict (rs : List Record) : DataFrame :=
  { columns := unionKeys rs
    rows := rs.map (fun r => (unionKeys rs).map (fun c => r.lookup c)) }

/-- pandas column selection df[cols]: keeps exactly the named columns in
the order given, dropping all others; raises KeyError when some
requested column is absent from the frame. -/
def selectCols (df : DataFrame) (cols : List String) : Except PyErr DataFrame :=
  if ∀ c ∈ cols, c ∈ df.columns then
    .ok { columns := cols
          rows := df.rows.map (fun r => cols.map (fun c => r.getD (df.columns.indexOf c) none)) }
  else .error (.keyError "columns not found in frame")

/-- Replace the value stored under one key of a response dictionary,
keeping its position, as a Python dict item assignment does. -/
def setKey (r : RawResponse) (k : String) (v : Field) : RawResponse :=
  r.map (fun kv => if kv.1 = k then (k, v) else kv)

/-- ScalpyrPro._send_request, given the raw response the base transport
returned for the request. Faithful to the source: the requested kind
must be a key of the response, else ApiException(response); the column
list is fetched with getattr inside a try/except KeyError block, so an
AttributeError from an unrecognized kind propagates uncaught; the
record list becomes a frame which is sliced to the configured columns,
and the result overwrites the resource key of the response. A resource
value that is not a record list is outside the verified claims and is
modelled as a ValueError. -/
def send_request (schema : SeatGeekDataStructure) (req_type : String)
    (response : RawResponse) : Except PyErr RawResponse :=
  match response.lookup req_type with
  | none => .error (.apiException response)
  | some f =>
    match getattrSG schema req_type with
    | .error (.keyError _) => .error (.apiException response)
    | .error e => .error e
    | .ok columns =>
      match f with
      | .records rs =>
        match selectCols (fromDict rs) columns with
        | .error e => .error e
        | .ok df => .ok (setKey response req_type (.table df))
      | _ => .error (.valueError "unsupported resource value")

/-- C1: for every supported resource kind (one with a configured column
list) and every raw response whose resource-kind key maps to a record
list containing at least the configured columns, send_request returns a
response whose resource key holds a table whose columns are exactly the
configured column list in the configured order, all other fields of the
raw records dropped, with one row per raw record. -/
theorem send_request_projects_configured_columns
    (schema : SeatGeekDataStructure) (req_type : String) (response : RawResponse)
    (rs : List Record) (cols : List String)
    (hkind : getattrSG schema req_type = .ok cols)
    (hval : response.lookup req_type = some (Field.records rs))
    (hcols : ∀ c ∈ cols, c ∈ unionKeys rs) :
    ∃ df : DataFrame,
      send_request schema req_type response = .ok (setKey response req_type (Field.table df)) ∧
      df.columns = cols ∧ df.rows.length = rs.length := by
  have hsel : selectCols (fromDict rs) cols =
      .ok { columns := cols
            rows := (fromDict rs).rows.map
              (fun r => cols.map (fun c => r.getD ((fromDict rs).columns.indexOf c) none)) } := by
    unfold selectCols
    rw [if_pos]
    exact hcols
  refine ⟨{ columns := cols
            rows := (fromDict rs).rows.map
              (fun r => cols.map (fun c => r.getD ((fromDict rs).columns.indexOf c) none)) },
    ?_, rfl, ?_⟩
  · unfold send_request
    rw [hval, hkind]
    simp [hsel]
  · simp [fromDict]

/-- Concrete schema for the C1 witness: events keep columns id and type. -/
def demoSchema : SeatGeekDataStructure :=
  { events := ["id", "type"], performers := [], stats := [], venues := [] }

/-- Concrete raw event records for the C1 witness, carrying an extra
field junk that the projection must drop. -/
def demoRecords : List Record :=
  [[("junk", "z"), ("id", "1"), ("type", "concert")],
   [("id", "2"), ("type", "theater"), ("junk", "w")]]

/-- Concrete raw response for the C1 witness. -/
def demoResponse : RawResponse :=
  [("events", Field.records demoRecords), ("meta", Field.other "m")]

/-- Witness for C1 at a concrete input: raw events records carrying an
extra field junk are projected to exactly the two configured columns. -/
theorem send_request_projects_configured_columns_witness :
    getattrSG demoSchema "events" = .ok ["id", "type"] ∧
    demoResponse.lookup "events" = some (Field.records demoRecords) ∧
    (∀ c ∈ ["id", "type"], c ∈ unionKeys demoRecords) ∧
    ∃ df : DataFrame,
      send_request demoSchema "events" demoResponse
        = .ok (setKey demoResponse "events" (Field.table df)) ∧
      df.columns = ["id", "type"] ∧ df.rows.length = demoRecords.length :=
  ⟨by decide, by decide, by decide,
    send_request_projects_configured_columns demoSchema "events" demoResponse demoRecords
      ["id", "type"] (by decide) (by decide) (by decide)⟩

/-- C3: when the requested resource kind is absent from the raw
response, send_request raises ApiException carrying the full raw
response. -/
theorem send_request_missing_key_api_exception
    (schema : SeatGeekDataStructure) (req_type : String) (response : RawResponse)
    (h : response.lookup req_type = none) :
    send_request schema req_type response = .error (.apiException response) := by
  unfold send_request
  rw [h]

/-- Witness for C3: an error payload without the requested events key
raises ApiException carrying that payload. -/
theorem send_request_missing_key_api_exception_witness :
    ([("error", Field.other "bad request")] : RawResponse).lookup "events" = none ∧
    send_request defaultStructure "events" [("error", Field.other "bad request")]
      = .error (.apiException [("error", Field.other "bad request")]) :=
  ⟨by decide,
    send_request_missing_key_api_exception defaultStructure "events"
      [("error", Field.other "bad request")] (by decide)⟩

/-- C4, code bug: a requested kind that is present in the response but
is not one of the four configured kinds makes getattr raise
AttributeError, which the except KeyError clause does not catch, so the
projection fails with AttributeError rather than with ApiException. -/
theorem send_request_unrecognized_kind_attribute_error :
    send_request defaultStructure "taxonomies"
        [("taxonomies", Field.records []), ("meta", Field.other "m")]
      = .error (.attributeError "taxonomies") := by decide

/-- Argument shape accepted for ids: either a plain list of id strings
or a pandas Series column of ids. Series entries are modelled after the
astype str conversion the code applies, so both carry strings. -/
inductive IdList where
  | list (l : List String)
  | series (l : List String)
deriving Repr, DecidableEq

/-- The underlying id strings of either accepted shape. -/
def idStrings : IdList → List String
  | .list l => l
  | .series l => l

/-- Comma-joining of the ids, as both branches of the isinstance test
perform before any request is issued. -/
def joinIds (ids : IdList) : String :=
  String.intercalate "," (idStrings ids)

/-- Metadata block of a paged events response. -/
structure Meta where
  total : Nat
  per_page : Nat
  page : Nat
deriving Repr, DecidableEq, Inhabited

/-- One events response as seen by get_events_by after projection: the
meta block, the projected events table (rows kept abstract), and every
other field of the response dictionary. -/
structure PageResp where
  meta : Meta
  events : List Record
  extra : List (String × Value)
deriving Repr, DecidableEq, Inhabited

/-- Request dictionary built by ScalpyrPro._get_events_by: the optional
type filter, the lookup-field filter, per_page and page. -/
structure EventsRequest where
  event_type : Option String
  lookup_field : String
  ids : String
  per_page : Nat
  page : Nat
deriving Repr, DecidableEq, Inhabited

/-- ScalpyrPro._get_events_by: builds the request dictionary for one
page fetch. -/
def mk_events_request (event_type : Option String) (lookup_field ids : String)
    (per_page page : Nat) : EventsRequest :=
  { event_type := event_type, lookup_field := lookup_field, ids := ids
    per_page := per_page, page := page }

/-- Ceiling division on naturals: math.ceil(a / b) for nonnegative
integers and b positive. -/
def ceilDiv (a b : Nat) : Nat := (a + b - 1) / b

/-- The filter key get_events_by derives from the requested join kind:
id for events, otherwise kind.id. -/
def lookupFieldOf (req_type : String) : String :=
  if req_type = "events" then "id" else req_type ++ ".id"

/-- The first-page request get_events_by issues, using the per_page the
caller asked for. -/
def firstEventsRequest (req_type : String) (ids : IdList) (per_page : Nat)
    (event_type : Option String) : EventsRequest :=
  mk_events_request event_type (lookupFieldOf req_type) (joinIds ids) per_page 1

/-- ScalpyrPro.get_events_by over a pure transport api mapping each
request to its response. Faithful to the source: joins the ids, fetches
page 1 with the requested per_page, reads total and per_page from the
page-1 metadata, computes total_pages with ceiling division, fetches
pages 2 through total_pages in increasing order with the server-reported
per_page, then replaces the events field of the response left by the
last fetch with the concatenation of all page tables. Returns the list
of issued requests in order, paired with the final response. -/
def get_events_by (api : EventsRequest → PageResp) (req_type : String) (ids : IdList)
    (per_page : Nat) (event_type : Option String) : List EventsRequest × PageResp :=
  let idsStr := joinIds ids
  let lookup_field := lookupFieldOf req_type
  let req1 := firstEventsRequest req_type ids per_page event_type
  let resp1 := api req1
  let total_records := resp1.meta.total
  let pp := resp1.meta.per_page
  let total_pages := ceilDiv total_records pp
  let laterReqs := (List.range' 2 (total_pages - 1)).map
    (fun n => mk_events_request event_type lookup_field idsStr pp n)
  let laterResps := laterReqs.map api
  let lastResp := laterResps.getLastD resp1
  (req1 :: laterReqs,
    { lastResp with events := (resp1.events :: laterResps.map (fun r => r.events)).flatten })

/-- Transport stub for the pager witnesses: a server holding 250 events
that clamps every requested page size to 100, answering each page with
one event row tagged by the page number and a page-dependent extra
field. -/
def demoApi : EventsRequest → PageResp := fun r =>
  { meta := { total := 250, per_page := 100, page := r.page }
    events := [[("page", toString r.page)]]
    extra := [("took", toString r.page)] }

/-- Helper: the pages of the issued requests are 1 followed by 2 up to
the ceiling of the page-1 total over the page-1 per_page. -/
theorem get_events_by_pages_eq
    (api : EventsRequest → PageResp) (req_type : String) (ids : IdList)
    (per_page : Nat) (event_type : Option String) :
    (get_events_by api req_type ids per_page event_type).1.map (fun r => r.page)
      = 1 :: List.range' 2
          (ceilDiv (api (firstEventsRequest req_type ids per_page event_type)).meta.total
            (api (firstEventsRequest req_type ids per_page event_type)).meta.per_page - 1) := by
  simp [get_events_by, mk_events_request, firstEventsRequest, lookupFieldOf, Function.comp_def]

/-- Helper: the requests issued map under the transport to page-1
response followed by the later responses, and the events field of the
result concatenates their events tables in order. -/
theorem get_events_by_events_eq
    (api : EventsRequest → PageResp) (req_type : String) (ids : IdList)
    (per_page : Nat) (event_type : Option String) :
    (get_events_by api req_type ids per_page event_type).2.events
      = (((get_events_by api req_type ids per_page event_type).1.map api).map
          (fun r => r.events)).flatten := by
  simp [get_events_by]

/-- Helper: for any count n, the list 1 :: 2 up to n equals the range
from 1 of length max 1 n. -/
theorem cons_range_two_eq_range_one (n : Nat) :
    1 :: List.range' 2 (n - 1) = List.range' 1 (max 1 n) := by
  rcases Nat.eq_zero_or_pos n with h0 | hpos
  · subst h0
    rfl
  · have h1 : max 1 n = n := Nat.max_eq_right hpos
    have h2 : n = (n - 1) + 1 := (Nat.succ_pred_eq_of_pos hpos).symm
    rw [h1, h2, List.range'_succ]
    simp

/-- C2: the pager computes the page count as the ceiling of total over
per_page, both read from the page-1 response metadata, whatever
per_page the caller requested: the pages fetched are 1 followed by
2 through that count. -/
theorem get_events_by_page_count_uses_server_per_page
    (api : EventsRequest → PageResp) (req_type : String) (ids : IdList)
    (per_page : Nat) (event_type : Option String)
    (_hpp : 0 < (api (firstEventsRequest req_type ids per_page event_type)).meta.per_page) :
    (get_events_by api req_type ids per_page event_type).1.map (fun r => r.page)
      = 1 :: List.range' 2
          (ceilDiv (api (firstEventsRequest req_type ids per_page event_type)).meta.total
            (api (firstEventsRequest req_type ids per_page event_type)).meta.per_page - 1) :=
  get_events_by_pages_eq api req_type ids per_page event_type

/-- Witness for C2: a server clamping the requested page size 1000 to
100 with 250 records makes the pager fetch pages 1, 2, 3. -/
theorem get_events_by_page_count_uses_server_per_page_witness :
    0 < (demoApi (firstEventsRequest "venue" (IdList.list ["9"]) 1000 none)).meta.per_page ∧
    (get_events_by demoApi "venue" (IdList.list ["9"]) 1000 none).1.map (fun r => r.page)
      = 1 :: List.range' 2
          (ceilDiv (demoApi (firstEventsRequest "venue" (IdList.list ["9"]) 1000 none)).meta.total
            (demoApi (firstEventsRequest "venue" (IdList.list ["9"]) 1000 none)).meta.per_page - 1) :=
  ⟨by decide,
    get_events_by_page_count_uses_server_per_page demoApi "venue" (IdList.list ["9"]) 1000 none
      (by decide)⟩

/-- C5: the pager issues exactly max 1 (ceil of total over per_page)
requests, for pages 1, 2, ..., in increasing order, and the events
field of the returned response is the concatenation of the per-page
events tables in request order, preserving within-page row order. -/
theorem get_events_by_request_schedule_and_concat
    (api : EventsRequest → PageResp) (req_type : String) (ids : IdList)
    (per_page : Nat) (event_type : Option String)
    (_hpp : 0 < (api (firstEventsRequest req_type ids per_page event_type)).meta.per_page) :
    (get_events_by api req_type ids per_page event_type).1.map (fun r => r.page)
      = List.range' 1
          (max 1 (ceilDiv (api (firstEventsRequest req_type ids per_page event_type)).meta.total
            (api (firstEventsRequest req_type ids per_page event_type)).meta.per_page)) ∧
    (get_events_by api req_type ids per_page event_type).1.length
      = max 1 (ceilDiv (api (firstEventsRequest req_type ids per_page event_type)).meta.total
          (api (firstEventsRequest req_type ids per_page event_type)).meta.per_page) ∧
    (get_events_by api req_type ids per_page event_type).2.events
      = (((get_events_by api req_type ids per_page event_type).1.map api).map
          (fun r => r.events)).flatten := by
  refine ⟨?_, ?_, get_events_by_events_eq api req_type ids per_page event_type⟩
  · rw [get_events_by_pages_eq api req_type ids per_page event_type]
    exact cons_range_two_eq_range_one _
  · have hlen := congrArg List.length (get_events_by_pages_eq api req_type ids per_page event_type)
    rw [List.length_map] at hlen
    rw [hlen]
    simp [List.length_range']
    omega

/-- Witness for C5: with 250 records and a server page size of 100 the
pager issues exactly 3 requests, for pages 1, 2, 3, and the returned
events table concatenates the three page tables in order. -/
theorem get_events_by_request_schedule_and_concat_witness :
    0 < (demoApi (firstEventsRequest "performers" (IdList.list ["7", "8"]) 1000 none)).meta.per_page ∧
    ((get_events_by demoApi "performers" (IdList.list ["7", "8"]) 1000 none).1.map (fun r => r.page)
      = List.range' 1
          (max 1 (ceilDiv (demoApi (firstEventsRequest "performers" (IdList.list ["7", "8"]) 1000
              none)).meta.total
            (demoApi (firstEventsRequest "performers" (IdList.list ["7", "8"]) 1000
              none)).meta.per_page)) ∧
    (get_events_by demoApi "performers" (IdList.list ["7", "8"]) 1000 none).1.length
      = max 1 (ceilDiv (demoApi (firstEventsRequest "performers" (IdList.list ["7", "8"]) 1000
            none)).meta.total
          (demoApi (firstEventsRequest "performers" (IdList.list ["7", "8"]) 1000
            none)).meta.per_page) ∧
    (get_events_by demoApi "performers" (IdList.list ["7", "8"]) 1000 none).2.events
      = (((get_events_by demoApi "performers" (IdList.list ["7", "8"]) 1000 none).1.map demoApi).map
          (fun r => r.events)).flatten) :=
  ⟨by decide,
    get_events_by_request_schedule_and_concat demoApi "performers" (IdList.list ["7", "8"]) 1000
      none (by decide)⟩

/-- Helper: the default of a last-element lookup on a cons moves to the
head. -/
theorem getLast_getD_cons_eq {α : Type _} (a d : α) (l : List α) :
    (a :: l).getLast?.getD d = l.getLast?.getD a := by
  cases l with
  | nil => rfl
  | cons b t => simp [List.getLast?_cons_cons, List.getLast?_cons]

/-- C9: the pager returns the last fetched response with only its
events field replaced by the concatenated table; its meta block and
every other field are left unchanged from the last fetched response. -/
theorem get_events_by_frame_last_response
    (api : EventsRequest → PageResp) (req_type : String) (ids : IdList)
    (per_page : Nat) (event_type : Option String)
    (_hpp : 0 < (api (firstEventsRequest req_type ids per_page event_type)).meta.per_page) :
    (get_events_by api req_type ids per_page event_type).2.meta
      = (((get_events_by api req_type ids per_page event_type).1.map api).getLastD
          (api (firstEventsRequest req_type ids per_page event_type))).meta ∧
    (get_events_by api req_type ids per_page event_type).2.extra
      = (((get_events_by api req_type ids per_page event_type).1.map api).getLastD
          (api (firstEventsRequest req_type ids per_page event_type))).extra ∧
    (get_events_by api req_type ids per_page event_type).2.events
      = (((get_events_by api req_type ids per_page event_type).1.map api).map
          (fun r => r.events)).flatten := by
  refine ⟨?_, ?_, get_events_by_events_eq api req_type ids per_page event_type⟩ <;>
    simp [get_events_by, getLast_getD_cons_eq, Function.comp_def]

/-- Witness for C9: on a 3-page fetch the returned meta and extra
fields are those of the page-3 response while events concatenates all
three pages. -/
theorem get_events_by_frame_last_response_witness :
    0 < (demoApi (firstEventsRequest "events" (IdList.list ["1", "2"]) 1000 none)).meta.per_page ∧
    ((get_events_by demoApi "events" (IdList.list ["1", "2"]) 1000 none).2.meta
      = (((get_events_by demoApi "events" (IdList.list ["1", "2"]) 1000 none).1.map
            demoApi).getLastD
          (demoApi (firstEventsRequest "events" (IdList.list ["1", "2"]) 1000 none))).meta ∧
    (get_events_by demoApi "events" (IdList.list ["1", "2"]) 1000 none).2.extra
      = (((get_events_by demoApi "events" (IdList.list ["1", "2"]) 1000 none).1.map
            demoApi).getLastD
          (demoApi (firstEventsRequest "events" (IdList.list ["1", "2"]) 1000 none))).extra ∧
    (get_events_by demoApi "events" (IdList.list ["1", "2"]) 1000 none).2.events
      = (((get_events_by demoApi "events" (IdList.list ["1", "2"]) 1000 none).1.map demoApi).map
          (fun r => r.events)).flatten) :=
  ⟨by decide,
    get_events_by_frame_last_response demoApi "events" (IdList.list ["1", "2"]) 1000 none
      (by decide)⟩

/-- C10: the first request carries the per_page the caller asked for,
and every request for pages 2 onward carries the per_page reported in
the page-1 response metadata. -/
theorem get_events_by_later_pages_server_per_page
    (api : EventsRequest → PageResp) (req_type : String) (ids : IdList)
    (per_page : Nat) (event_type : Option String)
    (_hpp : 0 < (api (firstEventsRequest req_type ids per_page event_type)).meta.per_page) :
    (get_events_by api req_type ids per_page event_type).1.head?
      = some (firstEventsRequest req_type ids per_page event_type) ∧
    (firstEventsRequest req_type ids per_page event_type).per_page = per_page ∧
    ∀ r ∈ (get_events_by api req_type ids per_page event_type).1.tail,
      r.per_page = (api (firstEventsRequest req_type ids per_page event_type)).meta.per_page := by
  refine ⟨?_, rfl, ?_⟩
  · simp [get_events_by]
  · intro r hr
    simp only [get_events_by, List.tail_cons, List.mem_map, List.mem_range'] at hr
    obtain ⟨n, -, rfl⟩ := hr
    rfl

/-- Witness for C10: the caller asks for 1000 per page, the server
clamps to 100, and the page-2 and page-3 requests carry 100. -/
theorem get_events_by_later_pages_server_per_page_witness :
    0 < (demoApi (firstEventsRequest "venue" (IdList.list ["42"]) 1000 none)).meta.per_page ∧
    ((get_events_by demoApi "venue" (IdList.list ["42"]) 1000 none).1.head?
      = some (firstEventsRequest "venue" (IdList.list ["42"]) 1000 none) ∧
    (firstEventsRequest "venue" (IdList.list ["42"]) 1000 none).per_page = 1000 ∧
    ∀ r ∈ (get_events_by demoApi "venue" (IdList.list ["42"]) 1000 none).1.tail,
      r.per_page = (demoApi (firstEventsRequest "venue" (IdList.list ["42"]) 1000
          none)).meta.per_page) :=
  ⟨by decide,
    get_events_by_later_pages_server_per_page demoApi "venue" (IdList.list ["42"]) 1000 none
      (by decide)⟩

/-- One venue row of a venues search response, restricted to the three
fields get_venue_ids reads. -/
structure Venue where
  name : String
  id : String
  num_upcoming_events : Nat
deriving Repr, DecidableEq

/-- One row of the table get_venue_ids returns. -/
structure VenueRow where
  venue : String
  venue_id : String
  searched_venue : String
deriving Repr, DecidableEq

/-- The loop body of ScalpyrPro.get_venue_ids over a pure venue search
(none models the search raising ApiException): accumulates, in input
order, the per-name tables appended to all_venue_data and the names
appended to venue_search_failed. A found name appends a table only when
its venue list is nonempty, and the table keeps exactly the venues with
num_upcoming_events greater than zero, each as one row carrying the
venue name, the venue id and the searched name. -/
def get_venue_ids_loop (search : String → Option (List Venue)) :
    List String → List (List VenueRow) × List String
  | [] => ([], [])
  | v :: rest =>
    match search v with
    | none =>
      let r := get_venue_ids_loop search rest
      (r.1, v :: r.2)
    | some vd =>
      let r := get_venue_ids_loop search rest
      if 0 < vd.length then
        (((vd.filter (fun x => 0 < x.num_upcoming_events)).map
            (fun x => { venue := x.name, venue_id := x.id, searched_venue := v })) :: r.1,
          r.2)
      else r

/-- ScalpyrPro.get_venue_ids: runs the loop, then concatenates the
accumulated tables with pd.concat, which raises ValueError when it is
given no tables at all. The second component of the result models the
printed diagnostic list of failed names. -/
def get_venue_ids (search : String → Option (List Venue)) (venues : List String) :
    Except PyErr (List VenueRow × List String) :=
  let r := get_venue_ids_loop search venues
  if r.1.length = 0 then .error (.valueError "No objects to concatenate")
  else .ok (r.1.flatten, r.2)

/-- The rows a single searched name contributes: none when its search
fails, otherwise one row per venue with upcoming events. -/
def venueRowsFor (search : String → Option (List Venue)) (v : String) : List VenueRow :=
  match search v with
  | none => []
  | some vd =>
    (vd.filter (fun x => 0 < x.num_upcoming_events)).map
      (fun x => { venue := x.name, venue_id := x.id, searched_venue := v })

/-- Helper: the loop's flattened tables are the per-name contributions
in input order, and its failed list is the names whose search failed,
in input order. -/
theorem get_venue_ids_loop_eq (search : String → Option (List Venue)) (venues : List String) :
    (get_venue_ids_loop search venues).1.flatten
        = (venues.map (venueRowsFor search)).flatten ∧
      (get_venue_ids_loop search venues).2
        = venues.filter (fun n => (search n).isNone) := by
  induction venues with
  | nil => exact ⟨rfl, rfl⟩
  | cons v rest ih =>
    unfold get_venue_ids_loop
    match hs : search v with
    | none =>
      simp [venueRowsFor, hs, ih.1, ih.2]
    | some vd =>
      by_cases hlen : 0 < vd.length
      · simp [venueRowsFor, hs, hlen, ih.1, ih.2]
      · have hvd : vd = [] := List.length_eq_zero.mp (Nat.eq_zero_of_not_pos hlen)
        subst hvd
        simp [venueRowsFor, hs, ih.1, ih.2]

/-- C6: a name whose search raises ApiException is recorded as failed
while the loop continues; each found name contributes exactly one row
per venue with num_upcoming_events greater than zero, carrying the
venue name, the venue id and the searched name; failed names appear
only in the diagnostic list and never in the returned table. -/
theorem get_venue_ids_failure_tolerance
    (search : String → Option (List Venue)) (names : List String)
    (rows : List VenueRow) (failed : List String)
    (h : get_venue_ids search names = .ok (rows, failed)) :
    failed = names.filter (fun n => (search n).isNone) ∧
    rows = (names.map (venueRowsFor search)).flatten ∧
    ∀ r ∈ rows, r.searched_venue ∉ failed := by
  unfold get_venue_ids at h
  by_cases hlen : (get_venue_ids_loop search names).1.length = 0
  · rw [if_pos hlen] at h
    exact absurd h (by simp)
  · rw [if_neg hlen] at h
    rw [Except.ok.injEq, Prod.mk.injEq] at h
    obtain ⟨h1, h2⟩ := h
    have hl := get_venue_ids_loop_eq search names
    refine ⟨by rw [← h2, hl.2], by rw [← h1, hl.1], ?_⟩
    intro r hr
    rw [← h1, hl.1] at hr
    rw [← h2, hl.2]
    simp only [List.mem_flatten, List.mem_map] at hr
    obtain ⟨t, ⟨n, hn, rfl⟩, hrt⟩ := hr
    unfold venueRowsFor at hrt
    match hs : search n with
    | none =>
      rw [hs] at hrt
      simp at hrt
    | some vd =>
      rw [hs] at hrt
      simp only [List.mem_map, List.mem_filter] at hrt
      obtain ⟨x, _, rfl⟩ := hrt
      simp [List.mem_filter, hs]

/-- Venue search stub for the C6 witness: one name is found with two
candidate venues, one of which has no upcoming events; every other
name fails. -/
def demoSearch : String → Option (List Venue) := fun n =>
  if n = "Madison Square Garden" then
    some [{ name := "Madison Square Garden", id := "93", num_upcoming_events := 22 },
          { name := "MSG Theater", id := "94", num_upcoming_events := 0 }]
  else none

/-- The single row the C6 witness search should produce. -/
def demoRow : VenueRow :=
  { venue := "Madison Square Garden", venue_id := "93",
    searched_venue := "Madison Square Garden" }

/-- Witness for C6 at the spec's example: the found name yields only
its venue with upcoming events and the unknown name lands only in the
diagnostic list. -/
theorem get_venue_ids_failure_tolerance_witness :
    get_venue_ids demoSearch ["Madison Square Garden", "NoSuchVenueXYZ"]
      = .ok ([demoRow], ["NoSuchVenueXYZ"]) ∧
    (["NoSuchVenueXYZ"]
        = ["Madison Square Garden", "NoSuchVenueXYZ"].filter
            (fun n => (demoSearch n).isNone) ∧
    [demoRow]
        = (["Madison Square Garden", "NoSuchVenueXYZ"].map (venueRowsFor demoSearch)).flatten ∧
    ∀ r ∈ [demoRow], r.searched_venue ∉ ["NoSuchVenueXYZ"]) :=
  ⟨by decide,
    get_venue_ids_failure_tolerance demoSearch
      ["Madison Square Garden", "NoSuchVenueXYZ"] [demoRow] ["NoSuchVenueXYZ"] (by decide)⟩

/-- C8: when every searched name fails, the concatenation step raises
ValueError, a failure distinct by construction from an ok result with
zero rows. -/
theorem get_venue_ids_all_failed_concat_error
    (search : String → Option (List Venue)) (names : List String)
    (h : ∀ n ∈ names, search n = none) :
    get_venue_ids search names = .error (.valueError "No objects to concatenate") := by
  have hloop : ∀ ns : List String, (∀ n ∈ ns, search n = none) →
      (get_venue_ids_loop search ns).1 = [] := by
    intro ns
    induction ns with
    | nil => intro _; rfl
    | cons v rest ih =>
      intro hall
      unfold get_venue_ids_loop
      rw [hall v (by simp)]
      simpa using ih (fun n hn => hall n (by simp [hn]))
  simp [get_venue_ids, hloop names h]

/-- Venue search stub for the C8 witness: every search fails. -/
def demoSearchAllFail : String → Option (List Venue) := fun _ => none

/-- Witness for C8: two names that both fail make get_venue_ids raise
ValueError from the empty concatenation. -/
theorem get_venue_ids_all_failed_concat_error_witness :
    (∀ n ∈ ["Alpha Hall", "Beta Hall"], demoSearchAllFail n = none) ∧
    get_venue_ids demoSearchAllFail ["Alpha Hall", "Beta Hall"]
      = .error (.valueError "No objects to concatenate") :=
  ⟨by decide,
    get_venue_ids_all_failed_concat_error demoSearchAllFail ["Alpha Hall", "Beta Hall"]
      (by decide)⟩

/-- Request issued by the batch-by-id lookup: the resource kind it is
dispatched to and the filter arguments. -/
structure ApiRequest where
  kind : String
  args : List (String × String)
deriving Repr, DecidableEq

/-- ScalpyrPro.get_by_id over a pure transport standing for the three
lookup methods: joins the ids with commas (the astype str branch for a
Series and the plain join branch for a list produce the same joined
string over the modelled string ids), then issues exactly one request
with the filter id mapped to the joined string. A kind outside the
lookup dictionary raises KeyError. The request list records the issued
requests. -/
def get_by_id {α : Type} (transport : ApiRequest → α) (req_type : String) (ids : IdList) :
    Except PyErr (List ApiRequest × α) :=
  let s := joinIds ids
  if req_type = "events" ∨ req_type = "performers" ∨ req_type = "venues" then
    .ok ([{ kind := req_type, args := [("id", s)] }],
      transport { kind := req_type, args := [("id", s)] })
  else .error (.keyError req_type)

/-- C7: for either accepted id shape, the ids are normalized to one
comma-separated string and exactly one request is issued, whose filter
maps id to that string. -/
theorem get_by_id_single_joined_request {α : Type} (transport : ApiRequest → α)
    (req_type : String) (ids : IdList)
    (h : req_type = "events" ∨ req_type = "performers" ∨ req_type = "venues") :
    get_by_id transport req_type ids
      = .ok ([{ kind := req_type
                args := [("id", String.intercalate "," (idStrings ids))] }],
          transport { kind := req_type
                      args := [("id", String.intercalate "," (idStrings ids))] }) := by
  unfold get_by_id joinIds
  rw [if_pos h]

/-- Witness for C7 at the spec's example: getById of events with ids
1, 2, 3 issues the single request with filter id mapped to 1,2,3. -/
theorem get_by_id_single_joined_request_witness :
    ("events" = "events" ∨ "events" = "performers" ∨ "events" = "venues") ∧
    get_by_id (fun r => r) "events" (IdList.list ["1", "2", "3"])
      = .ok ([{ kind := "events"
                args := [("id", String.intercalate "," (idStrings (IdList.list ["1", "2", "3"])))] }],
          { kind := "events"
            args := [("id", String.intercalate "," (idStrings (IdList.list ["1", "2", "3"])))] }) ∧
    String.intercalate "," (idStrings (IdList.list ["1", "2", "3"])) = "1,2,3" :=
  ⟨Or.inl rfl,
    get_by_id_single_joined_request (fun r => r) "events" (IdList.list ["1", "2", "3"])
      (Or.inl rfl),
    by decide⟩

end Scalpyr
